import Mathlib

/-!
Shallow embedding of the federation and transport-validation engine of
mcp-context-forge (the `GatewayService`): gateway lifecycle state,
transport connectivity probing, JSON-RPC forwarding with typed error
mapping, health checking, and the gateway registry operations.

The service implementation file is not part of the source tree available
here (only its unit tests under `tests/unit/mcpgateway/services/` and the
alembic migration `i3j4k5l6m7n8_modify_gateway_url_constraint.py` are), so
the operations below are modelled from the specification, with the unique
constraint columns taken from the migration and concrete error-message
shapes taken from the unit tests.
-/

namespace McpGateway

/-- An HTTP response as seen by the transport probe: a status code and a
header list. -/
structure HttpResponse where
  status : Nat
  headers : List (String × String)
deriving Repr, DecidableEq

/-- Outcome of one low-level transport request: a response, a connection
failure (refused / DNS / TLS), or an elapsed read/connect timeout. -/
inductive TransportOutcome where
  | response (r : HttpResponse)
  | connectError
  | timeout
deriving Repr, DecidableEq

/-- The closed set of wire transports. -/
inductive TransportKind where
  | sse
  | streamableHttp
deriving Repr, DecidableEq

/-- Typed probe failure classification, transport-independent. -/
inductive ErrorKind where
  | connectFailure
  | timeoutFailure
  | authFailure
  | protocolFailure
deriving Repr, DecidableEq

/-- Ephemeral probe result consumed by the registry / health monitor. -/
structure ProbeResult where
  reachable : Bool
  sessionMetadata : List (String × String)
  error : Option ErrorKind
deriving Repr, DecidableEq

/-- ASCII lowercase of a string, defined structurally over its character
list. -/
def lowerString (s : String) : String :=
  ⟨s.data.map Char.toLower⟩

/-- Case-insensitive header lookup. -/
def lookupHeader (headers : List (String × String)) (key : String) : Option String :=
  (headers.find? (fun h => lowerString h.1 == lowerString key)).map (fun h => h.2)

/-- Status in the 2xx success range. -/
def is2xx (s : Nat) : Bool := 200 ≤ s && s ≤ 299

/-- Modelled from the spec: the transport-independent failure mapping of
`TransportProbe` (spec §4.1, realised by `_validate_gateway_url` in the
missing `gateway_service.py`): connection failure → ConnectFailure,
timeout → TimeoutFailure, HTTP 401/403 → AuthFailure, other non-2xx →
ProtocolFailure, 2xx → reachable. -/
def classifyOutcome (o : TransportOutcome) : ProbeResult :=
  match o with
  | .connectError => ⟨false, [], some .connectFailure⟩
  | .timeout => ⟨false, [], some .timeoutFailure⟩
  | .response r =>
    if is2xx r.status then ⟨true, [], none⟩
    else if r.status == 401 || r.status == 403 then ⟨false, [], some .authFailure⟩
    else ⟨false, [], some .protocolFailure⟩

/-- Session metadata captured from a final response: the value of the
`Mcp-Session-Id` header when present, empty otherwise (absence is
tolerated, not fatal). -/
def sessionMetadataOf (r : HttpResponse) : List (String × String) :=
  match lookupHeader r.headers "mcp-session-id" with
  | some s => [("mcp-session-id", s)]
  | none => []

/-- Modelled from the spec: the StreamableHTTP handshake of the missing
`_validate_gateway_url`: issue the handshake request; if the response
carries a `Location` header, follow it exactly once and re-issue on the
redirected URL; capture any session identifier header on the final
response. Returns the probe result together with the list of URLs the
probe issued requests to. -/
def probeStreamableHttp (url : String) (fetch : String → TransportOutcome) :
    ProbeResult × List String :=
  match fetch url with
  | .connectError => (⟨false, [], some .connectFailure⟩, [url])
  | .timeout => (⟨false, [], some .timeoutFailure⟩, [url])
  | .response r =>
    match lookupHeader r.headers "location" with
    | some redirected =>
      match fetch redirected with
      | .connectError => (⟨false, [], some .connectFailure⟩, [url, redirected])
      | .timeout => (⟨false, [], some .timeoutFailure⟩, [url, redirected])
      | .response r2 =>
        let base := classifyOutcome (.response r2)
        ({ base with sessionMetadata := sessionMetadataOf r2 }, [url, redirected])
    | none =>
      let base := classifyOutcome (.response r)
      ({ base with sessionMetadata := sessionMetadataOf r }, [url])

/-- Modelled from the spec: `TransportProbe.probe` of the missing
`gateway_service.py` — dispatch on the transport kind; SSE opens one
streaming request and classifies it, StreamableHTTP performs the
handshake with single redirect following. Also returns the URLs
requested. -/
def probe (kind : TransportKind) (url : String) (fetch : String → TransportOutcome) :
    ProbeResult × List String :=
  match kind with
  | .sse => (classifyOutcome (fetch url), [url])
  | .streamableHttp => probeStreamableHttp url fetch

/-- Modelled from the spec: `_validate_gateway_url` of the missing
`gateway_service.py` returns whether the probe reported the URL
reachable. -/
def validateGatewayUrl (kind : TransportKind) (url : String)
    (fetch : String → TransportOutcome) : Bool :=
  (probe kind url fetch).1.reachable

/-- A transport outcome that is an HTTP response with status 401 or 403. -/
def TransportOutcome.isAuthDenied : TransportOutcome → Bool
  | .response r => r.status == 401 || r.status == 403
  | _ => false

/-! ### Registry data model -/

/-- A registered gateway record. `teamId` and `ownerEmail` form the owning
scope; `slug` joins the scope and `url` in the storage unique constraint
`uq_team_owner_url_slug_gateway` of migration `i3j4k5l6m7n8`. -/
structure Gateway where
  id : Nat
  name : String
  slug : String
  url : String
  teamId : Option String
  ownerEmail : Option String
  transport : TransportKind
  enabled : Bool
  reachable : Bool
  lastSeen : Option Nat
deriving Repr, DecidableEq

/-- A capability imported from a gateway into the federated tool catalog. -/
structure FederatedTool where
  id : Nat
  name : String
  owningGatewayId : Nat
  enabled : Bool
deriving Repr, DecidableEq

/-- Typed events published by the notifier. -/
inductive GatewayEvent where
  | added (id : Nat)
  | updated (id : Nat)
  | deleted (id : Nat)
  | activated (id : Nat)
  | deactivated (id : Nat)
deriving Repr, DecidableEq

/-- The registry state: the gateway table, the federated tool catalog, and
the stream of events published so far. -/
structure RegistryState where
  gateways : List Gateway
  tools : List FederatedTool
  events : List GatewayEvent
deriving Repr, DecidableEq

/-- The service's error taxonomy (spec §7). `nameConflict` carries the
conflicting gateway's id; `gatewayError` is the generic base error the
unit tests observe from `update_gateway` / `delete_gateway` on a missing
id; `notFound` is the `GatewayNotFoundError` raised by `get_gateway`;
`integrityError` is the storage boundary rejecting a unique-constraint
violation. -/
inductive GatewayServiceError where
  | nameConflict (name : String) (gatewayId : Nat) (message : String)
  | connectionError (message : String)
  | gatewayError (message : String)
  | notFound (message : String)
  | integrityError (message : String)
deriving Repr, DecidableEq

/-- A registration request (`GatewayCreate`). -/
structure GatewaySpec where
  name : String
  slug : String
  url : String
  teamId : Option String
  ownerEmail : Option String
  transport : TransportKind
deriving Repr, DecidableEq

/-- An update request (`GatewayUpdate`): optional fields, absent fields
left unchanged. -/
structure GatewayUpdate where
  name : Option String
  url : Option String
  slug : Option String
deriving Repr, DecidableEq

/-- Outcome of `_initialize_gateway`: either the probe succeeded and
discovered the given tool names, or the connection failed. -/
inductive InitOutcome where
  | ok (toolNames : List String)
  | connectFailure (message : String)
deriving Repr, DecidableEq

/-- The storage key of the unique constraint
`uq_team_owner_url_slug_gateway` (columns `team_id`, `owner_email`,
`url`, `slug` — migration `i3j4k5l6m7n8`). -/
def uniqueKey (g : Gateway) : Option String × Option String × String × String :=
  (g.teamId, g.ownerEmail, g.url, g.slug)

/-- Look up the first registered gateway in the same owning scope with the
given name (the persistence contract `find_by_name(scope)`). -/
def findConflict (gws : List Gateway) (spec : GatewaySpec) : Option Gateway :=
  gws.find? (fun g =>
    g.teamId == spec.teamId && g.ownerEmail == spec.ownerEmail && g.name == spec.name)

/-- Look up a gateway by id (the persistence `db.get`). -/
def findById (gws : List Gateway) (id : Nat) : Option Gateway :=
  gws.find? (fun g => g.id == id)

/-- Whether inserting `g` would violate the storage unique constraint on
`(team_id, owner_email, url, slug)`. -/
def violatesUrlSlugConstraint (gws : List Gateway) (g : Gateway) : Bool :=
  gws.any (fun h => decide (uniqueKey h = uniqueKey g))

/-- Largest gateway id in use (0 when the table is empty). -/
def maxGatewayId (gws : List Gateway) : Nat :=
  gws.foldr (fun g acc => max g.id acc) 0

/-- Fresh primary key for a newly inserted gateway. -/
def nextGatewayId (st : RegistryState) : Nat := maxGatewayId st.gateways + 1

/-- Largest tool id in use (0 when the catalog is empty). -/
def maxToolId (ts : List FederatedTool) : Nat :=
  ts.foldr (fun t acc => max t.id acc) 0

/-- Modelled from the spec: the federator's merge (spec §4.4) as used at
registration — a discovered tool name already owned by a *different*
gateway is a conflict and is skipped; other names are added, enabled,
owned by the registering gateway. -/
def mergeTools (existing : List FederatedTool) (gid : Nat) (names : List String)
    (nextId : Nat) : List FederatedTool :=
  match names with
  | [] => []
  | n :: rest =>
    if existing.any (fun t => t.name == n && t.owningGatewayId != gid) then
      mergeTools existing gid rest nextId
    else
      ⟨nextId, n, gid, true⟩ :: mergeTools existing gid rest (nextId + 1)

/-! ### Registry operations -/

/-- The enabled, reachable gateway record a successful registration
persists, with a fresh primary key. -/
def freshGateway (st : RegistryState) (spec : GatewaySpec) (now : Nat) : Gateway :=
  { id := nextGatewayId st, name := spec.name, slug := spec.slug,
    url := spec.url, teamId := spec.teamId, ownerEmail := spec.ownerEmail,
    transport := spec.transport, enabled := true, reachable := true,
    lastSeen := some now }

/-- Modelled from the spec: `register_gateway` of the missing
`gateway_service.py` (spec §4.5). Checks name uniqueness in the owning
scope (conflict raises `GatewayNameConflictError` carrying the conflicting
id — message shape from `test_register_gateway_name_conflict`), then
probes (`_initialize_gateway`; a connect failure raises
`GatewayConnectionError` with nothing persisted), then lets the storage
boundary enforce `uq_team_owner_url_slug_gateway`, federates discovered
tools, persists and notifies `added`. All-or-nothing: every error branch
returns the registry state unchanged. -/
def registerGateway (st : RegistryState) (spec : GatewaySpec) (init : InitOutcome)
    (now : Nat) : Except GatewayServiceError Gateway × RegistryState :=
  match findConflict st.gateways spec with
  | some existing =>
    (.error (.nameConflict spec.name existing.id
      ("Gateway already exists with name: " ++ spec.name)), st)
  | none =>
    match init with
    | .connectFailure m => (.error (.connectionError m), st)
    | .ok toolNames =>
      if violatesUrlSlugConstraint st.gateways (freshGateway st spec now) then
        (.error (.integrityError
          ("UNIQUE constraint failed: uq_team_owner_url_slug_gateway")), st)
      else
        (.ok (freshGateway st spec now),
         { gateways := st.gateways ++ [freshGateway st spec now],
           tools := st.tools ++ mergeTools st.tools (freshGateway st spec now).id
             toolNames (maxToolId st.tools + 1),
           events := st.events ++ [.added (freshGateway st spec now).id] })

/-- Apply an update request to a gateway record (absent fields kept). -/
def applyUpdate (gw : Gateway) (upd : GatewayUpdate) : Gateway :=
  { gw with name := upd.name.getD gw.name,
            url := upd.url.getD gw.url,
            slug := upd.slug.getD gw.slug }

/-- The re-probe gate of an update: when the url changed, a probe connect
failure aborts the update with the given message. -/
def reProbeFailure (changed : Bool) (init : InitOutcome) : Option String :=
  if changed then
    match init with
    | .connectFailure m => some m
    | .ok _ => none
  else none

/-- Modelled from the spec: `update_gateway` of the missing
`gateway_service.py` (spec §4.5). An unknown id raises the generic
`GatewayError` with message `Gateway not found: <id>` (pinned by
`test_update_gateway_not_found`); a name change is re-checked for
uniqueness in the scope; a url change is re-probed; the storage unique
constraint on `(team_id, owner_email, url, slug)` is enforced on the
persisted record; success notifies `updated`. Every error branch leaves
the registry state unchanged. -/
def updateGateway (st : RegistryState) (id : Nat) (upd : GatewayUpdate)
    (init : InitOutcome) : Except GatewayServiceError Gateway × RegistryState :=
  match findById st.gateways id with
  | none => (.error (.gatewayError ("Gateway not found: " ++ toString id)), st)
  | some gw =>
    match st.gateways.find? (fun h =>
        decide (h.id ≠ gw.id) && h.teamId == gw.teamId
          && h.ownerEmail == gw.ownerEmail && h.name == (applyUpdate gw upd).name) with
    | some conflicting =>
      (.error (.nameConflict (applyUpdate gw upd).name conflicting.id
        ("Gateway already exists with name: " ++ (applyUpdate gw upd).name)), st)
    | none =>
      match reProbeFailure ((applyUpdate gw upd).url != gw.url) init with
      | some m => (.error (.connectionError m), st)
      | none =>
        if st.gateways.any (fun h =>
            decide (h.id ≠ gw.id ∧ uniqueKey h = uniqueKey (applyUpdate gw upd))) then
          (.error (.integrityError
            ("UNIQUE constraint failed: uq_team_owner_url_slug_gateway")), st)
        else
          (.ok (applyUpdate gw upd),
           { gateways := st.gateways.map (fun h =>
               if h.id == gw.id then applyUpdate gw upd else h),
             tools := st.tools,
             events := st.events ++ [.updated gw.id] })

/-- Modelled from the spec: `toggle_gateway_status` of the missing
`gateway_service.py` (spec §4.5). An unknown id raises the generic
`GatewayError`; deactivation flips `enabled` off, cascades to disable all
owned tools and notifies `deactivated`; activation re-probes first
(failure raises `GatewayConnectionError`, nothing changed), then enables
the gateway and its owned tools and notifies `activated`. A toggle to the
current state is a no-op. -/
def toggleGatewayStatus (st : RegistryState) (id : Nat) (activate : Bool)
    (init : InitOutcome) : Except GatewayServiceError Gateway × RegistryState :=
  match findById st.gateways id with
  | none => (.error (.gatewayError ("Gateway not found: " ++ toString id)), st)
  | some gw =>
    if gw.enabled == activate then (.ok gw, st)
    else if activate then
      match init with
      | .connectFailure m => (.error (.connectionError m), st)
      | .ok _ =>
        let gw' := { gw with enabled := true, reachable := true }
        (.ok gw',
         { gateways := st.gateways.map (fun h => if h.id == gw.id then gw' else h),
           tools := st.tools.map (fun t =>
             if t.owningGatewayId == gw.id then { t with enabled := true } else t),
           events := st.events ++ [.activated gw.id] })
    else
      let gw' := { gw with enabled := false }
      (.ok gw',
       { gateways := st.gateways.map (fun h => if h.id == gw.id then gw' else h),
         tools := st.tools.map (fun t =>
           if t.owningGatewayId == gw.id then { t with enabled := false } else t),
         events := st.events ++ [.deactivated gw.id] })

/-- Modelled from the spec: `delete_gateway` of the missing
`gateway_service.py` (spec §4.5). An unknown id raises the generic
`GatewayError` with message `Gateway not found: <id>` (pinned by
`test_delete_gateway_not_found`); otherwise the gateway and every tool it
owns are removed in the same transaction and `deleted` is notified. -/
def deleteGateway (st : RegistryState) (id : Nat) :
    Except GatewayServiceError Unit × RegistryState :=
  match findById st.gateways id with
  | none => (.error (.gatewayError ("Gateway not found: " ++ toString id)), st)
  | some gw =>
    (.ok (),
     { gateways := st.gateways.filter (fun h => decide (h.id ≠ gw.id)),
       tools := st.tools.filter (fun t => decide (t.owningGatewayId ≠ gw.id)),
       events := st.events ++ [.deleted gw.id] })

/-- Modelled from the spec: `get_gateway` of the missing
`gateway_service.py` (spec §4.5): returns the record; raises
`GatewayNotFoundError` if absent, or if present-but-disabled and
`include_inactive` is false. -/
def getGateway (st : RegistryState) (id : Nat) (includeInactive : Bool) :
    Except GatewayServiceError Gateway :=
  match findById st.gateways id with
  | none => .error (.notFound ("Gateway not found: " ++ toString id))
  | some gw =>
    if gw.enabled || includeInactive then .ok gw
    else .error (.notFound ("Gateway not found: " ++ toString id))

/-! ### RPC forwarding -/

/-- A JSON value, enough to carry JSON-RPC `result` payloads. -/
inductive JsonValue where
  | null
  | bool (b : Bool)
  | num (n : Int)
  | str (s : String)
  | arr (xs : List JsonValue)
  | obj (fields : List (String × JsonValue))

/-- A remote JSON-RPC error object: code and message. -/
structure RpcError where
  code : Int
  message : String
deriving Repr, DecidableEq

/-- A JSON-RPC 2.0 response envelope as the forwarder reads it: the
optional `result` field and the optional `error` field. -/
structure RpcEnvelope where
  result : Option JsonValue
  error : Option RpcError

/-- Outcome of the forwarder's HTTP POST: the parsed response envelope or
a transport-level failure. -/
inductive ForwardOutcome where
  | response (env : RpcEnvelope)
  | networkError (message : String)

/-- Modelled from the spec: `forward_request` of the missing
`gateway_service.py` (spec §4.2). Builds the JSON-RPC envelope and posts
it; a transport-level failure raises `GatewayConnectionError`; an
envelope with an `error` field raises the generic `GatewayError` carrying
the remote message (shape `Gateway error: <message>` pinned by
`test_forward_request_error_response`); success returns the `result`
field and, as a side effect, updates the gateway's `last_seen` to now. -/
def forwardRequest (gw : Gateway) (outcome : ForwardOutcome) (now : Nat) :
    Except GatewayServiceError JsonValue × Gateway :=
  match outcome with
  | .networkError m =>
    (.error (.connectionError ("Failed to forward request to gateway: " ++ m)), gw)
  | .response env =>
    match env.error with
    | some e => (.error (.gatewayError ("Gateway error: " ++ e.message)), gw)
    | none =>
      match env.result with
      | some r => (.ok r, { gw with lastSeen := some now })
      | none => (.error (.gatewayError "Invalid JSON-RPC response"), gw)

/-! ### Health checking -/

/-- Modelled from the spec: `check_one` of the HealthMonitor (spec §4.3,
matching the `check_gateway_health` helper the unit tests exercise):
probe the gateway's URL over its transport; on success return `true` and
write back `reachable` and `last_seen`; on any probe failure return
`false` and mark the gateway unreachable. The probe's own timeout is
modelled by the transport outcome `TransportOutcome.timeout`, so a probe
that would hang contributes a result instead of blocking. -/
def checkOne (gw : Gateway) (fetch : String → TransportOutcome) (now : Nat) :
    Bool × Gateway :=
  let r := (probe gw.transport gw.url fetch).1
  if r.reachable then (true, { gw with reachable := true, lastSeen := some now })
  else (false, { gw with reachable := false })

/-! ### Concrete fixtures used by the witnesses -/

/-- The registered gateway of the unit-test fixtures. -/
def gwA : Gateway :=
  { id := 1, name := "test_gateway", slug := "test-gateway",
    url := "http://example.com/gateway", teamId := none, ownerEmail := none,
    transport := .sse, enabled := true, reachable := true, lastSeen := some 0 }

/-- One tool owned by `gwA`. -/
def toolA : FederatedTool :=
  { id := 101, name := "dummy_tool", owningGatewayId := 1, enabled := true }

/-- A registry holding `gwA` and its tool. -/
def stA : RegistryState := { gateways := [gwA], tools := [toolA], events := [] }

/-- A registration request clashing with `gwA` on name within the same scope. -/
def specConflictA : GatewaySpec :=
  { name := "test_gateway", slug := "other-gateway", url := "http://example.com/other",
    teamId := none, ownerEmail := none, transport := .sse }

/-- A registration request with a fresh name. -/
def specFreshB : GatewaySpec :=
  { name := "new_gateway", slug := "new-gateway", url := "http://example.com/new",
    teamId := none, ownerEmail := none, transport := .sse }

/-- A second gateway, whose tools must be untouched by gateway 1's
toggles. -/
def gwB : Gateway :=
  { id := 2, name := "other_gateway", slug := "other-gateway",
    url := "http://example.org/gateway", teamId := none, ownerEmail := none,
    transport := .sse, enabled := true, reachable := true, lastSeen := some 0 }

/-- A tool owned by `gwB`. -/
def toolB : FederatedTool :=
  { id := 202, name := "other_tool", owningGatewayId := 2, enabled := true }

/-- A registry holding both gateways and one tool each. -/
def stAB : RegistryState :=
  { gateways := [gwA, gwB], tools := [toolA, toolB], events := [] }

/-- A transport that redirects the handshake URL once and answers the
redirected URL with a session id, mirroring the unit-test scenario. -/
def redirectFetch : String → TransportOutcome := fun u =>
  if u = "http://example.com" then
    .response ⟨200, [("Location", "http://sampleredirected.com")]⟩
  else
    .response ⟨200, [("Mcp-Session-Id", "sample123"), ("Content-Type", "application/json")]⟩

/-- The storage-boundary invariant: the `gateways` table rows are pairwise
distinct on the primary key `id` and on the unique-constraint key
`(team_id, owner_email, url, slug)` of `uq_team_owner_url_slug_gateway`
(migration `i3j4k5l6m7n8`). -/
def StorageInvariant (st : RegistryState) : Prop :=
  st.gateways.Pairwise (fun a b => a.id ≠ b.id ∧ uniqueKey a ≠ uniqueKey b)

/-! ### Claim theorems -/

/-- C1: a registration request whose gateway name equals the name of an
already-registered gateway in the same scope raises
`GatewayNameConflictError` carrying the conflicting gateway's id, and the
registry state — gateway table, tool catalog and event stream — is left
exactly unchanged (no gateway inserted, no tool added, existing gateway
not mutated). -/
theorem register_gateway_name_conflict (st : RegistryState) (spec : GatewaySpec)
    (init : InitOutcome) (now : Nat) (g : Gateway)
    (h : findConflict st.gateways spec = some g) :
    (registerGateway st spec init now).1 =
      .error (.nameConflict spec.name g.id
        ("Gateway already exists with name: " ++ spec.name))
    ∧ (registerGateway st spec init now).2 = st := by
  simp [registerGateway, h]

/-- Witness for C1 on the unit-test fixture: registering a second gateway
named `test_gateway` fails with the conflict error carrying id 1 and
leaves the registry untouched. -/
theorem register_gateway_name_conflict_witness :
    findConflict stA.gateways specConflictA = some gwA ∧
    ((registerGateway stA specConflictA (.ok ["t1"]) 5).1 =
        .error (.nameConflict specConflictA.name gwA.id
          ("Gateway already exists with name: " ++ specConflictA.name))
      ∧ (registerGateway stA specConflictA (.ok ["t1"]) 5).2 = stA) :=
  ⟨by decide,
   register_gateway_name_conflict stA specConflictA (.ok ["t1"]) 5 gwA (by decide)⟩

/-- C2: a registration request whose transport probe fails with a connect
failure raises `GatewayConnectionError` and is all-or-nothing: the
registry state — gateway table, tool catalog and event stream — is left
exactly as before the call. -/
theorem register_gateway_connection_error (st : RegistryState) (spec : GatewaySpec)
    (m : String) (now : Nat)
    (h : findConflict st.gateways spec = none) :
    (registerGateway st spec (.connectFailure m) now).1 =
      .error (.connectionError m)
    ∧ (registerGateway st spec (.connectFailure m) now).2 = st := by
  simp [registerGateway, h]

/-- Witness for C2: a probe connect failure while registering a fresh name
into the unit-test registry raises the connection error and changes
nothing. -/
theorem register_gateway_connection_error_witness :
    findConflict stA.gateways specFreshB = none ∧
    ((registerGateway stA specFreshB (.connectFailure "Failed to connect") 5).1 =
        .error (.connectionError "Failed to connect")
      ∧ (registerGateway stA specFreshB (.connectFailure "Failed to connect") 5).2 = stA) :=
  ⟨by decide,
   register_gateway_connection_error stA specFreshB "Failed to connect" 5 (by decide)⟩

/-- C10: for an id with no registered gateway, `update_gateway` and
`delete_gateway` raise the generic `GatewayError` with message
`Gateway not found: <id>` and leave the registry state unchanged, while
`get_gateway` is the operation that raises `GatewayNotFoundError` for
that id. -/
theorem update_delete_gateway_not_found (st : RegistryState) (id : Nat)
    (upd : GatewayUpdate) (init : InitOutcome)
    (h : findById st.gateways id = none) :
    (updateGateway st id upd init).1 =
      .error (.gatewayError ("Gateway not found: " ++ toString id))
    ∧ (updateGateway st id upd init).2 = st
    ∧ (deleteGateway st id).1 =
      .error (.gatewayError ("Gateway not found: " ++ toString id))
    ∧ (deleteGateway st id).2 = st
    ∧ (∀ inc : Bool, getGateway st id inc =
        .error (.notFound ("Gateway not found: " ++ toString id))) := by
  refine ⟨?_, ?_, ?_, ?_, ?_⟩ <;>
    simp [updateGateway, deleteGateway, getGateway, h]

/-- Witness for C10: updating and deleting gateway id 999 on the unit-test
registry both fail with the generic error message `Gateway not found:
999` and change nothing. -/
theorem update_delete_gateway_not_found_witness :
    findById stA.gateways 999 = none ∧
    ((updateGateway stA 999 ⟨some "whatever", none, none⟩ (.ok [])).1 =
        .error (.gatewayError ("Gateway not found: " ++ toString 999))
      ∧ (updateGateway stA 999 ⟨some "whatever", none, none⟩ (.ok [])).2 = stA
      ∧ (deleteGateway stA 999).1 =
        .error (.gatewayError ("Gateway not found: " ++ toString 999))
      ∧ (deleteGateway stA 999).2 = stA
      ∧ (∀ inc : Bool, getGateway stA 999 inc =
          .error (.notFound ("Gateway not found: " ++ toString 999)))) :=
  ⟨by decide,
   update_delete_gateway_not_found stA 999 ⟨some "whatever", none, none⟩ (.ok [])
     (by decide)⟩

/-- C5: a forward call whose remote JSON-RPC response envelope contains an
`error` field raises `GatewayError` (the generic constructor, not
`GatewayConnectionError`), and the raised error's message contains the
remote error's message text as a substring. -/
theorem forward_request_error_response (gw : Gateway) (env : RpcEnvelope)
    (e : RpcError) (now : Nat) (h : env.error = some e) :
    (forwardRequest gw (.response env) now).1 =
      .error (.gatewayError ("Gateway error: " ++ e.message))
    ∧ (∀ m : String, (forwardRequest gw (.response env) now).1 ≠
        .error (.connectionError m))
    ∧ (∃ pre post : String,
        "Gateway error: " ++ e.message = pre ++ e.message ++ post) := by
  refine ⟨by simp [forwardRequest, h], ?_, ?_⟩
  · intro m
    simp [forwardRequest, h]
  · exact ⟨"Gateway error: ", "", by simp⟩

/-- Witness for C5: forwarding against a remote that answers with the
JSON-RPC error `Boom` raises the generic gateway error carrying `Boom`. -/
theorem forward_request_error_response_witness :
    (RpcEnvelope.mk none (some ⟨-32000, "Boom"⟩)).error = some ⟨-32000, "Boom"⟩ ∧
    ((forwardRequest gwA (.response (RpcEnvelope.mk none (some ⟨-32000, "Boom"⟩))) 7).1 =
        .error (.gatewayError ("Gateway error: " ++ RpcError.message ⟨-32000, "Boom"⟩))
      ∧ (∀ m : String,
          (forwardRequest gwA (.response (RpcEnvelope.mk none (some ⟨-32000, "Boom"⟩))) 7).1 ≠
            .error (.connectionError m))
      ∧ (∃ pre post : String,
          "Gateway error: " ++ RpcError.message ⟨-32000, "Boom"⟩ =
            pre ++ RpcError.message ⟨-32000, "Boom"⟩ ++ post)) :=
  ⟨rfl,
   forward_request_error_response gwA (RpcEnvelope.mk none (some ⟨-32000, "Boom"⟩))
     ⟨-32000, "Boom"⟩ 7 rfl⟩

/-- C6: a forward call whose remote response has a `result` field and no
`error` field returns exactly the `result` field, and as a side effect
sets the gateway's `last_seen` to a timestamp no earlier than the start
of the call (clock monotonicity: the write time `now` is at or after the
call's start time). -/
theorem forward_request_success (gw : Gateway) (env : RpcEnvelope) (r : JsonValue)
    (now start : Nat) (herr : env.error = none) (hres : env.result = some r)
    (hclock : start ≤ now) :
    (forwardRequest gw (.response env) now).1 = .ok r
    ∧ (forwardRequest gw (.response env) now).2.lastSeen = some now
    ∧ (∃ t, (forwardRequest gw (.response env) now).2.lastSeen = some t ∧ start ≤ t) := by
  refine ⟨by simp [forwardRequest, herr, hres], by simp [forwardRequest, herr, hres], ?_⟩
  exact ⟨now, by simp [forwardRequest, herr, hres], hclock⟩

/-- Witness for C6: a successful forward at time 7 of a call started at
time 3 returns the `result` payload and stamps `last_seen = 7 ≥ 3`. -/
theorem forward_request_success_witness :
    (RpcEnvelope.mk (some (.str "OK")) none).error = none ∧
    (RpcEnvelope.mk (some (.str "OK")) none).result = some (.str "OK") ∧
    3 ≤ 7 ∧
    ((forwardRequest gwA (.response (RpcEnvelope.mk (some (.str "OK")) none)) 7).1 =
        .ok (.str "OK")
      ∧ (forwardRequest gwA (.response (RpcEnvelope.mk (some (.str "OK")) none)) 7).2.lastSeen =
          some 7
      ∧ (∃ t, (forwardRequest gwA
            (.response (RpcEnvelope.mk (some (.str "OK")) none)) 7).2.lastSeen = some t
          ∧ 3 ≤ t)) :=
  ⟨rfl, rfl, by decide,
   forward_request_success gwA (RpcEnvelope.mk (some (.str "OK")) none) (.str "OK")
     7 3 rfl rfl (by decide)⟩

/-- C4: a probe whose underlying read or connect times out makes the
health check terminate with result `false` rather than raising or
hanging: `check_one` returns `false` and the probe classifies the
outcome as `TimeoutFailure` with `reachable = false`, for either
transport kind. -/
theorem check_one_timeout (gw : Gateway) (fetch : String → TransportOutcome)
    (now : Nat) (h : fetch gw.url = .timeout) :
    (checkOne gw fetch now).1 = false
    ∧ (probe gw.transport gw.url fetch).1.reachable = false
    ∧ (probe gw.transport gw.url fetch).1.error = some .timeoutFailure := by
  cases htk : gw.transport <;>
    simp [checkOne, probe, probeStreamableHttp, classifyOutcome, htk, h]

/-- Witness for C4: checking the fixture gateway against a transport whose
every request times out yields `false` with a timeout classification. -/
theorem check_one_timeout_witness :
    (fun _ : String => TransportOutcome.timeout) gwA.url = .timeout ∧
    ((checkOne gwA (fun _ => TransportOutcome.timeout) 9).1 = false
      ∧ (probe gwA.transport gwA.url (fun _ => TransportOutcome.timeout)).1.reachable = false
      ∧ (probe gwA.transport gwA.url (fun _ => TransportOutcome.timeout)).1.error =
          some .timeoutFailure) :=
  ⟨rfl, check_one_timeout gwA (fun _ => TransportOutcome.timeout) 9 rfl⟩

/-- Helper: a response with status 401 or 403 classifies as an auth
failure, whatever its headers. -/
theorem classifyOutcome_auth (r : HttpResponse)
    (h : r.status = 401 ∨ r.status = 403) :
    classifyOutcome (.response r) = ⟨false, [], some .authFailure⟩ := by
  rcases h with h | h <;> simp [classifyOutcome, is2xx, h]

/-- Helper: an auth-denied transport outcome is a response whose status is
401 or 403. -/
theorem isAuthDenied_response {o : TransportOutcome}
    (h : o.isAuthDenied = true) :
    ∃ r : HttpResponse, o = .response r ∧ (r.status = 401 ∨ r.status = 403) := by
  cases o with
  | response r =>
    refine ⟨r, rfl, ?_⟩
    simpa [TransportOutcome.isAuthDenied] using h
  | connectError => simp [TransportOutcome.isAuthDenied] at h
  | timeout => simp [TransportOutcome.isAuthDenied] at h

/-- C3: a probe whose HTTP responses carry status 401 or 403 reports
`reachable = false` — `_validate_gateway_url` returns `false` — and
classifies the failure as `AuthFailure`, distinct from the connectivity
classification, regardless of headers and of transport kind. -/
theorem validate_gateway_url_auth_failure (kind : TransportKind) (url : String)
    (fetch : String → TransportOutcome)
    (h : ∀ u, (fetch u).isAuthDenied = true) :
    validateGatewayUrl kind url fetch = false
    ∧ (probe kind url fetch).1.error = some .authFailure
    ∧ (probe kind url fetch).1.error ≠ some .connectFailure := by
  have main : (probe kind url fetch).1.reachable = false
      ∧ (probe kind url fetch).1.error = some .authFailure := by
    cases kind with
    | sse =>
      obtain ⟨r, hfu, hr⟩ := isAuthDenied_response (h url)
      constructor <;> simp [probe, hfu, classifyOutcome_auth r hr]
    | streamableHttp =>
      obtain ⟨r, hfu, hr⟩ := isAuthDenied_response (h url)
      cases hloc : lookupHeader r.headers "location" with
      | none =>
        constructor <;>
          simp [probe, probeStreamableHttp, hfu, hloc, classifyOutcome_auth r hr]
      | some loc =>
        obtain ⟨r2, hfl, hr2⟩ := isAuthDenied_response (h loc)
        constructor <;>
          simp [probe, probeStreamableHttp, hfu, hloc, hfl, classifyOutcome_auth r2 hr2]
  refine ⟨?_, main.2, ?_⟩
  · simp [validateGatewayUrl, main.1]
  · rw [main.2]; simp

/-- Witness for C3: against a remote answering 401 on every request, both
transport kinds validate to `false` with an `AuthFailure`
classification (shown here for SSE). -/
theorem validate_gateway_url_auth_failure_witness :
    (∀ u, ((fun _ : String => TransportOutcome.response ⟨401, [("content-type", "text/event-stream")]⟩) u).isAuthDenied = true) ∧
    (validateGatewayUrl .sse "http://example.com"
        (fun _ => TransportOutcome.response ⟨401, [("content-type", "text/event-stream")]⟩) = false
      ∧ (probe .sse "http://example.com"
          (fun _ => TransportOutcome.response ⟨401, [("content-type", "text/event-stream")]⟩)).1.error =
          some .authFailure
      ∧ (probe .sse "http://example.com"
          (fun _ => TransportOutcome.response ⟨401, [("content-type", "text/event-stream")]⟩)).1.error ≠
          some .connectFailure) :=
  ⟨fun _ => rfl,
   validate_gateway_url_auth_failure .sse "http://example.com"
     (fun _ => TransportOutcome.response ⟨401, [("content-type", "text/event-stream")]⟩)
     (fun _ => rfl)⟩

/-- C9: a StreamableHTTP probe whose first handshake response carries a
redirect `Location` header follows the redirect exactly once — issuing
requests to exactly the original and the redirected URL, in that order —
captures the session identifier header of the final response when
present, and reports `reachable = true` when the final response is 2xx;
the absence of session metadata on the final response is not fatal. -/
theorem streamablehttp_redirect (url loc : String)
    (fetch : String → TransportOutcome) (r1 r2 : HttpResponse)
    (h1 : fetch url = .response r1)
    (hloc : lookupHeader r1.headers "location" = some loc)
    (h2 : fetch loc = .response r2)
    (h2xx : is2xx r2.status = true) :
    (probe .streamableHttp url fetch).2 = [url, loc]
    ∧ (probe .streamableHttp url fetch).1.reachable = true
    ∧ (∀ s, lookupHeader r2.headers "mcp-session-id" = some s →
        ("mcp-session-id", s) ∈ (probe .streamableHttp url fetch).1.sessionMetadata)
    ∧ (lookupHeader r2.headers "mcp-session-id" = none →
        (probe .streamableHttp url fetch).1.reachable = true
        ∧ (probe .streamableHttp url fetch).1.sessionMetadata = []) := by
  refine ⟨?_, ?_, ?_, ?_⟩
  · simp [probe, probeStreamableHttp, h1, hloc, h2]
  · simp [probe, probeStreamableHttp, h1, hloc, h2, classifyOutcome, h2xx]
  · intro s hs
    simp [probe, probeStreamableHttp, h1, hloc, h2, classifyOutcome, h2xx,
      sessionMetadataOf, hs]
  · intro hs
    simp [probe, probeStreamableHttp, h1, hloc, h2, classifyOutcome, h2xx,
      sessionMetadataOf, hs]

/-- Witness for C9: the redirect scenario of the unit test — handshake on
`http://example.com` is redirected once to `http://sampleredirected.com`,
the probe reaches the gateway and captures session id `sample123`. -/
theorem streamablehttp_redirect_witness :
    redirectFetch "http://example.com" =
      .response ⟨200, [("Location", "http://sampleredirected.com")]⟩ ∧
    lookupHeader [("Location", "http://sampleredirected.com")] "location" =
      some "http://sampleredirected.com" ∧
    redirectFetch "http://sampleredirected.com" =
      .response ⟨200, [("Mcp-Session-Id", "sample123"), ("Content-Type", "application/json")]⟩ ∧
    is2xx 200 = true ∧
    ((probe .streamableHttp "http://example.com" redirectFetch).2 =
        ["http://example.com", "http://sampleredirected.com"]
      ∧ (probe .streamableHttp "http://example.com" redirectFetch).1.reachable = true
      ∧ (∀ s, lookupHeader [("Mcp-Session-Id", "sample123"), ("Content-Type", "application/json")]
            "mcp-session-id" = some s →
          ("mcp-session-id", s) ∈
            (probe .streamableHttp "http://example.com" redirectFetch).1.sessionMetadata)
      ∧ (lookupHeader [("Mcp-Session-Id", "sample123"), ("Content-Type", "application/json")]
            "mcp-session-id" = none →
          (probe .streamableHttp "http://example.com" redirectFetch).1.reachable = true
          ∧ (probe .streamableHttp "http://example.com" redirectFetch).1.sessionMetadata = [])) :=
  ⟨by decide, by decide, by decide, by decide,
   streamablehttp_redirect "http://example.com" "http://sampleredirected.com"
     redirectFetch ⟨200, [("Location", "http://sampleredirected.com")]⟩
     ⟨200, [("Mcp-Session-Id", "sample123"), ("Content-Type", "application/json")]⟩
     (by decide) (by decide) (by decide) (by decide)⟩

/-- C7: deactivating an enabled gateway sets its `enabled` flag to false,
disables exactly the tools it owns — every owned tool reappears with only
its `enabled` flag cleared, every tool owned by another gateway is
unchanged, and the tool count is preserved — leaves every other gateway
record unchanged, and emits a `deactivated` event. -/
theorem toggle_gateway_deactivate (st : RegistryState) (id : Nat) (gw : Gateway)
    (init : InitOutcome)
    (hfind : findById st.gateways id = some gw) (hen : gw.enabled = true) :
    (toggleGatewayStatus st id false init).1 = .ok { gw with enabled := false }
    ∧ { gw with enabled := false } ∈ (toggleGatewayStatus st id false init).2.gateways
    ∧ (∀ g ∈ st.gateways, g.id ≠ gw.id →
        g ∈ (toggleGatewayStatus st id false init).2.gateways)
    ∧ (∀ t ∈ st.tools, t.owningGatewayId = gw.id →
        { t with enabled := false } ∈ (toggleGatewayStatus st id false init).2.tools)
    ∧ (∀ t ∈ st.tools, t.owningGatewayId ≠ gw.id →
        t ∈ (toggleGatewayStatus st id false init).2.tools)
    ∧ (toggleGatewayStatus st id false init).2.tools.length = st.tools.length
    ∧ (toggleGatewayStatus st id false init).2.gateways.length = st.gateways.length
    ∧ (toggleGatewayStatus st id false init).2.events =
        st.events ++ [.deactivated gw.id] := by
  have hmem : gw ∈ st.gateways := List.mem_of_find?_eq_some hfind
  have hres : toggleGatewayStatus st id false init =
      (.ok { gw with enabled := false },
       { gateways := st.gateways.map
           (fun h => if h.id == gw.id then { gw with enabled := false } else h),
         tools := st.tools.map (fun t =>
           if t.owningGatewayId == gw.id then { t with enabled := false } else t),
         events := st.events ++ [.deactivated gw.id] }) := by
    simp [toggleGatewayStatus, hfind, hen]
  rw [hres]
  refine ⟨rfl, ?_, ?_, ?_, ?_, by simp, by simp, rfl⟩
  · exact List.mem_map.mpr ⟨gw, hmem, by simp⟩
  · intro g hg hne
    exact List.mem_map.mpr ⟨g, hg, by simp [hne]⟩
  · intro t ht howner
    exact List.mem_map.mpr ⟨t, ht, by simp [howner]⟩
  · intro t ht hne
    exact List.mem_map.mpr ⟨t, ht, by simp [hne]⟩

/-- Witness for C7: deactivating gateway 1 in the two-gateway registry
disables exactly `toolA`, leaves `gwB` and `toolB` untouched and emits
the `deactivated` event. -/
theorem toggle_gateway_deactivate_witness :
    findById stAB.gateways 1 = some gwA ∧ gwA.enabled = true ∧
    ((toggleGatewayStatus stAB 1 false (.ok [])).1 = .ok { gwA with enabled := false }
      ∧ { gwA with enabled := false } ∈ (toggleGatewayStatus stAB 1 false (.ok [])).2.gateways
      ∧ (∀ g ∈ stAB.gateways, g.id ≠ gwA.id →
          g ∈ (toggleGatewayStatus stAB 1 false (.ok [])).2.gateways)
      ∧ (∀ t ∈ stAB.tools, t.owningGatewayId = gwA.id →
          { t with enabled := false } ∈ (toggleGatewayStatus stAB 1 false (.ok [])).2.tools)
      ∧ (∀ t ∈ stAB.tools, t.owningGatewayId ≠ gwA.id →
          t ∈ (toggleGatewayStatus stAB 1 false (.ok [])).2.tools)
      ∧ (toggleGatewayStatus stAB 1 false (.ok [])).2.tools.length = stAB.tools.length
      ∧ (toggleGatewayStatus stAB 1 false (.ok [])).2.gateways.length = stAB.gateways.length
      ∧ (toggleGatewayStatus stAB 1 false (.ok [])).2.events =
          stAB.events ++ [.deactivated gwA.id]) :=
  ⟨by decide, by decide,
   toggle_gateway_deactivate stAB 1 gwA (.ok []) (by decide) (by decide)⟩

/-- Helper: every gateway in the table has id at most `maxGatewayId`. -/
theorem mem_le_maxGatewayId {gws : List Gateway} {g : Gateway} (h : g ∈ gws) :
    g.id ≤ maxGatewayId gws := by
  induction gws with
  | nil => cases h
  | cons a t ih =>
    rcases List.mem_cons.mp h with rfl | hm
    · exact Nat.le_max_left g.id (maxGatewayId t)
    · exact le_trans (ih hm) (Nat.le_max_right a.id (maxGatewayId t))

/-- Helper: the pairwise-distinct relation of the storage invariant is
symmetric. -/
theorem storageRel_symm :
    Symmetric (fun a b : Gateway => a.id ≠ b.id ∧ uniqueKey a ≠ uniqueKey b) :=
  fun _ _ hab => ⟨hab.1.symm, hab.2.symm⟩

/-- Helper: under the storage invariant a gateway id occurs at most once. -/
theorem id_unique_of_inv {l : List Gateway}
    (hp : l.Pairwise (fun a b => a.id ≠ b.id ∧ uniqueKey a ≠ uniqueKey b))
    {g g2 : Gateway} (hg : g ∈ l) (hg2 : g2 ∈ l) (hid : g.id = g2.id) : g = g2 := by
  by_contra hne
  exact (List.Pairwise.forall storageRel_symm hp hg hg2 hne).1 hid

/-- Helper: appending a freshly registered gateway that passed the
storage constraint check preserves the storage invariant. -/
theorem append_fresh_pairwise (st : RegistryState) (spec : GatewaySpec) (now : Nat)
    (hinv : StorageInvariant st)
    (hviol : violatesUrlSlugConstraint st.gateways (freshGateway st spec now) = false) :
    (st.gateways ++ [freshGateway st spec now]).Pairwise
      (fun a b => a.id ≠ b.id ∧ uniqueKey a ≠ uniqueKey b) := by
  rw [List.pairwise_append]
  refine ⟨hinv, List.pairwise_singleton _ _, ?_⟩
  intro a ha b hb
  rw [List.mem_singleton] at hb
  subst hb
  constructor
  · have h1 := mem_le_maxGatewayId ha
    show a.id ≠ nextGatewayId st
    unfold nextGatewayId
    omega
  · intro hkey
    have hany : st.gateways.any
        (fun g => decide (uniqueKey g = uniqueKey (freshGateway st spec now))) = true :=
      List.any_eq_true.mpr ⟨a, ha, by simp [hkey]⟩
    rw [violatesUrlSlugConstraint] at hviol
    rw [hany] at hviol
    cases hviol

/-- Helper: `register_gateway` preserves the storage invariant. -/
theorem registerGateway_keeps_inv (st : RegistryState) (spec : GatewaySpec)
    (init : InitOutcome) (now : Nat) (hinv : StorageInvariant st) :
    StorageInvariant (registerGateway st spec init now).2 := by
  unfold registerGateway
  cases hfc : findConflict st.gateways spec with
  | some g => exact hinv
  | none =>
    cases init with
    | connectFailure m => exact hinv
    | ok names =>
      by_cases hviol : violatesUrlSlugConstraint st.gateways (freshGateway st spec now) = true
      · simp only [hviol, if_true]
        exact hinv
      · rw [Bool.not_eq_true] at hviol
        simp only [hviol, Bool.false_eq_true, if_false]
        exact append_fresh_pairwise st spec now hinv hviol

/-- Helper: `update_gateway` preserves the storage invariant. -/
theorem updateGateway_keeps_inv (st : RegistryState) (id : Nat) (upd : GatewayUpdate)
    (init : InitOutcome) (hinv : StorageInvariant st) :
    StorageInvariant (updateGateway st id upd init).2 := by
  unfold updateGateway
  split
  · exact hinv
  · next gw hfb =>
    split
    · exact hinv
    · next hnc =>
      split
      · exact hinv
      · next hpr =>
        split
        · exact hinv
        · next hviol =>
          rw [Bool.not_eq_true] at hviol
          show (st.gateways.map fun h =>
            if h.id == gw.id then applyUpdate gw upd else h).Pairwise _
          rw [List.pairwise_map]
          refine List.Pairwise.imp_of_mem ?_ hinv
          intro a b ha hb hab
          have hfresh : ∀ g ∈ st.gateways, ¬ g.id = gw.id →
              ¬ uniqueKey g = uniqueKey (applyUpdate gw upd) := by
            intro g hg hgid hgkey
            have : st.gateways.any (fun h =>
                decide (h.id ≠ gw.id ∧ uniqueKey h = uniqueKey (applyUpdate gw upd))) = true :=
              List.any_eq_true.mpr ⟨g, hg, by simp [hgid, hgkey]⟩
            rw [this] at hviol
            cases hviol
          have haid : (applyUpdate gw upd).id = gw.id := rfl
          by_cases ha' : a.id = gw.id
          · have hb' : ¬ b.id = gw.id := fun hb' => hab.1 (ha'.trans hb'.symm)
            simp only [ha', beq_self_eq_true, if_true, hb', beq_iff_eq, if_false]
            refine ⟨?_, ?_⟩
            · rw [haid, ← ha']; exact hab.1
            · exact fun hk => hfresh b hb hb' hk.symm
          · by_cases hb' : b.id = gw.id
            · simp only [ha', beq_iff_eq, if_false, hb', beq_self_eq_true, if_true]
              refine ⟨?_, ?_⟩
              · rw [haid, ← hb']; exact hab.1
              · exact fun hk => hfresh a ha ha' hk
            · simp only [ha', hb', beq_iff_eq, if_false]
              exact hab

/-- Helper: `toggle_gateway_status` preserves the storage invariant. -/
theorem toggleGateway_keeps_inv (st : RegistryState) (id : Nat) (act : Bool)
    (init : InitOutcome) (hinv : StorageInvariant st) :
    StorageInvariant (toggleGatewayStatus st id act init).2 := by
  have hmap : ∀ gw : Gateway, gw ∈ st.gateways → ∀ en re : Bool,
      (st.gateways.map fun h =>
        if h.id == gw.id then { gw with enabled := en, reachable := re } else h).Pairwise
      (fun a b => a.id ≠ b.id ∧ uniqueKey a ≠ uniqueKey b) := by
    intro gw hgw en re
    rw [List.pairwise_map]
    refine List.Pairwise.imp_of_mem ?_ hinv
    intro a b ha hb hab
    by_cases ha' : a.id = gw.id
    · have hb' : ¬ b.id = gw.id := fun hb' => hab.1 (ha'.trans hb'.symm)
      have haeq : a = gw := id_unique_of_inv hinv ha hgw ha'
      simp only [ha', beq_self_eq_true, if_true, hb', beq_iff_eq, if_false]
      subst haeq
      exact hab
    · by_cases hb' : b.id = gw.id
      · have hbeq : b = gw := id_unique_of_inv hinv hb hgw hb'
        simp only [ha', beq_iff_eq, if_false, hb', beq_self_eq_true, if_true]
        subst hbeq
        exact hab
      · simp only [ha', hb', beq_iff_eq, if_false]
        exact hab
  unfold toggleGatewayStatus
  split
  · exact hinv
  · next gw hfb =>
    have hgw : gw ∈ st.gateways := List.mem_of_find?_eq_some hfb
    split
    · exact hinv
    · split
      · split
        · exact hinv
        · exact hmap gw hgw true true
      · have := hmap gw hgw false gw.reachable
        simpa using this

/-- Helper: `delete_gateway` preserves the storage invariant. -/
theorem deleteGateway_keeps_inv (st : RegistryState) (id : Nat)
    (hinv : StorageInvariant st) :
    StorageInvariant (deleteGateway st id).2 := by
  unfold deleteGateway
  cases hfb : findById st.gateways id with
  | none => exact hinv
  | some gw =>
    exact List.Pairwise.filter _ hinv

/-- C8: no two registered gateways share the owning scope
`(team_id, owner_email)` together with `url` and `slug` — in particular
two gateways of the same scope and url must differ in slug — and this
uniqueness, backed by the storage constraint
`uq_team_owner_url_slug_gateway` together with primary-key uniqueness, is
preserved by every registry operation: register, update, toggle and
delete. -/
theorem gateway_scope_url_slug_unique (st : RegistryState)
    (hinv : StorageInvariant st) (spec : GatewaySpec)
    (initr initu initt : InitOutcome) (now idu idt idd : Nat)
    (upd : GatewayUpdate) (act : Bool) :
    (∀ g ∈ st.gateways, ∀ g2 ∈ st.gateways, g ≠ g2 → uniqueKey g ≠ uniqueKey g2)
    ∧ (∀ g ∈ st.gateways, ∀ g2 ∈ st.gateways, g ≠ g2 →
        g.teamId = g2.teamId → g.ownerEmail = g2.ownerEmail → g.url = g2.url →
        g.slug ≠ g2.slug)
    ∧ StorageInvariant (registerGateway st spec initr now).2
    ∧ StorageInvariant (updateGateway st idu upd initu).2
    ∧ StorageInvariant (toggleGatewayStatus st idt act initt).2
    ∧ StorageInvariant (deleteGateway st idd).2 := by
  have hkeys : ∀ g ∈ st.gateways, ∀ g2 ∈ st.gateways, g ≠ g2 →
      uniqueKey g ≠ uniqueKey g2 := by
    intro g hg g2 hg2 hne
    exact (List.Pairwise.forall storageRel_symm hinv hg hg2 hne).2
  refine ⟨hkeys, ?_, registerGateway_keeps_inv st spec initr now hinv,
    updateGateway_keeps_inv st idu upd initu hinv,
    toggleGateway_keeps_inv st idt act initt hinv,
    deleteGateway_keeps_inv st idd hinv⟩
  intro g hg g2 hg2 hne hteam howner hurl hslug
  exact hkeys g hg g2 hg2 hne (by simp [uniqueKey, hteam, howner, hurl, hslug])

/-- Witness for C8 on the two-gateway registry: the storage invariant
holds, and each operation applied to it preserves it. -/
theorem gateway_scope_url_slug_unique_witness :
    StorageInvariant stAB ∧
    ((∀ g ∈ stAB.gateways, ∀ g2 ∈ stAB.gateways, g ≠ g2 → uniqueKey g ≠ uniqueKey g2)
      ∧ (∀ g ∈ stAB.gateways, ∀ g2 ∈ stAB.gateways, g ≠ g2 →
          g.teamId = g2.teamId → g.ownerEmail = g2.ownerEmail → g.url = g2.url →
          g.slug ≠ g2.slug)
      ∧ StorageInvariant (registerGateway stAB specFreshB (.ok ["t2"]) 5).2
      ∧ StorageInvariant (updateGateway stAB 1 ⟨some "renamed", none, none⟩ (.ok [])).2
      ∧ StorageInvariant (toggleGatewayStatus stAB 1 false (.ok [])).2
      ∧ StorageInvariant (deleteGateway stAB 2).2) :=
  ⟨by simp [StorageInvariant, stAB, gwA, gwB, uniqueKey],
   gateway_scope_url_slug_unique stAB
     (by simp [StorageInvariant, stAB, gwA, gwB, uniqueKey]) specFreshB
     (.ok ["t2"]) (.ok []) (.ok []) 5 1 1 2 ⟨some "renamed", none, none⟩ false⟩

end McpGateway
